import Mathlib

/-!
# Verification of the mountain_snail statistics core

Shallow embedding of the statistics/time-estimation core of the
mountain_snail hiking-time calculator (`src/utils.rs`, `src/main.rs`),
with proofs about the claims of the specification.

Floating-point (`f64`) arithmetic of the source is modelled over the
real numbers.  Rust's `f64::round` (round half away from zero) is
modelled by `rustRound`, and the saturating `as u64` cast by `u64sat`
(negative values clamp to `0`, values above `2^64 - 1` clamp to
`2^64 - 1`).  `std::time::Duration` values produced by the core are
whole numbers of seconds, modelled as `ℕ`.
-/

namespace MountainSnail

/-- Rust's `f64::round`: nearest integer, ties round away from zero
(`(0.5).round() == 1.0`, `(-0.5).round() == -1.0`). -/
noncomputable def rustRound (x : ℝ) : ℤ :=
  if 0 ≤ x then ⌊x + 1 / 2⌋ else ⌈x - 1 / 2⌉

/-- Rust's saturating `as u64` cast applied to an integral value:
negative values become `0`, values above `u64::MAX` become `u64::MAX`. -/
def u64sat (n : ℤ) : ℕ := (min n (2 ^ 64 - 1)).toNat

/-- `slope_speed` from `src/utils.rs:134-138`:
`segment_speed = 0.6 * exp(3.5 * (delta_elevation / distance + formula_adjustement))`,
`seconds = (segment_speed * distance).round() as u64`, returned as a
whole-second `Duration` (here `ℕ`). -/
noncomputable def slope_speed (delta_elevation distance formula_adjustement : ℝ) : ℕ :=
  let segment_speed := 0.6 * Real.exp (3.5 * (delta_elevation / distance + formula_adjustement))
  let seconds := u64sat (rustRound (segment_speed * distance))
  seconds

/-- Round to nearest with ties to even, the rounding mode the
specification's SlopeSpeedModel formula prescribes
("fractional seconds truncate via round-to-nearest, ties-to-even"). -/
noncomputable def roundTiesEven (x : ℝ) : ℤ :=
  if Int.fract x < 1 / 2 then ⌊x⌋
  else if 1 / 2 < Int.fract x then ⌊x⌋ + 1
  else if Even ⌊x⌋ then ⌊x⌋ else ⌊x⌋ + 1

/-- The specification's SlopeSpeedModel, written from the spec's words:
`speed = 0.6 * exp(3.5 * (delta_elevation / distance_meters + adjustment))`,
`seconds = round(speed * distance_meters)` with round-to-nearest,
ties-to-even, then the saturating conversion to a non-negative
integral-second duration. -/
noncomputable def slopeSpeedSpecTiesEven (delta_elevation distance_meters adjustment : ℝ) : ℕ :=
  u64sat (roundTiesEven
    (0.6 * Real.exp (3.5 * (delta_elevation / distance_meters + adjustment)) * distance_meters))

/-- Round to nearest with ties away from zero, written from the amended
claim's words (stated via negation rather than `rustRound`'s
floor/ceil branches). -/
noncomputable def roundHalfAwayFromZero (x : ℝ) : ℤ :=
  if x < 0 then -⌊-x + 1 / 2⌋ else ⌊x + 1 / 2⌋

/-- The amended SlopeSpeedModel: the same exponential formula, but
fractional seconds round to nearest with ties away from zero. -/
noncomputable def slopeSpeedSpecTiesAway (delta_elevation distance_meters adjustment : ℝ) : ℕ :=
  u64sat (roundHalfAwayFromZero
    (0.6 * Real.exp (3.5 * (delta_elevation / distance_meters + adjustment)) * distance_meters))

theorem rustRound_eq_roundHalfAwayFromZero (x : ℝ) :
    rustRound x = roundHalfAwayFromZero x := by
  rw [rustRound, roundHalfAwayFromZero]
  rcases le_or_lt 0 x with h | h
  · rw [if_pos h, if_neg (not_lt.mpr h)]
  · rw [if_neg (not_le.mpr h), if_pos h]
    have hx : (-x + 1 / 2 : ℝ) = -(x - 1 / 2) := by ring
    rw [hx, Int.floor_neg, neg_neg]

/-- **C1** (confirmed).  For every `delta_elevation` and every
`adjustment`, `slope_speed` applied with distance `0` returns a duration
of `0` seconds: a zero-length segment costs zero time, not an error. -/
theorem C1_zero_distance (delta_elevation formula_adjustement : ℝ) :
    slope_speed delta_elevation 0 formula_adjustement = 0 := by
  have h : (0.6 : ℝ) * Real.exp (3.5 * (delta_elevation / 0 + formula_adjustement)) * 0 = 0 := by
    ring
  have hr : rustRound ((0.6 : ℝ) * Real.exp (3.5 * (delta_elevation / 0 + formula_adjustement)) * 0) = 0 := by
    rw [h, rustRound, if_pos le_rfl]
    norm_num
  simp only [slope_speed, hr]
  rfl

theorem u64sat_zero : u64sat 0 = 0 := by norm_num [u64sat]

theorem u64sat_one : u64sat 1 = 1 := by norm_num [u64sat]

/-- **C2** counterexample.  At `delta_elevation = -1/15`,
`distance = 5/6 > 0`, `adjustment = 0.08` the exponent is `0`, so
`speed * distance = 0.6 * (5/6) = 1/2` exactly: the code's
`f64::round` (ties away from zero) returns `1` second, while the
claimed round-to-nearest-ties-to-even returns `0` seconds. -/
theorem C2_counterexample :
    (0 : ℝ) < 5 / 6 ∧
      slope_speed (-1 / 15) (5 / 6) 0.08 = 1 ∧
      slopeSpeedSpecTiesEven (-1 / 15) (5 / 6) 0.08 = 0 := by
  have harg : (3.5 : ℝ) * (-1 / 15 / (5 / 6) + 0.08) = 0 := by norm_num
  have hv : (0.6 : ℝ) * Real.exp (3.5 * (-1 / 15 / (5 / 6) + 0.08)) * (5 / 6) = 1 / 2 := by
    rw [harg, Real.exp_zero]; norm_num
  refine ⟨by norm_num, ?_, ?_⟩
  · show u64sat (rustRound ((0.6 : ℝ) * Real.exp (3.5 * (-1 / 15 / (5 / 6) + 0.08)) * (5 / 6))) = 1
    rw [hv, rustRound, if_pos (by norm_num : (0 : ℝ) ≤ 1 / 2)]
    have : (1 / 2 : ℝ) + 1 / 2 = 1 := by norm_num
    rw [this, Int.floor_one, u64sat_one]
  · show u64sat (roundTiesEven ((0.6 : ℝ) * Real.exp (3.5 * (-1 / 15 / (5 / 6) + 0.08)) * (5 / 6))) = 0
    rw [hv, roundTiesEven]
    have hfl : ⌊(1 / 2 : ℝ)⌋ = 0 := by norm_num [Int.floor_eq_zero_iff]
    have hfr : Int.fract (1 / 2 : ℝ) = 1 / 2 := by
      rw [Int.fract, hfl]; norm_num
    rw [hfr, if_neg (by norm_num), if_neg (by norm_num), hfl, if_pos even_zero, u64sat_zero]

/-- **C2** (corrected).  For strictly positive distance, `slope_speed`
returns exactly `round(0.6 * exp(3.5 * (delta/distance + adjustment)) * distance)`
whole seconds, where fractional seconds round to nearest with ties
away from zero (Rust `f64::round`), not ties-to-even. -/
theorem C2_formula (delta_elevation distance_meters adjustment : ℝ)
    (_h : 0 < distance_meters) :
    slope_speed delta_elevation distance_meters adjustment =
      slopeSpeedSpecTiesAway delta_elevation distance_meters adjustment := by
  simp only [slope_speed, slopeSpeedSpecTiesAway, rustRound_eq_roundHalfAwayFromZero]

/-- Witness for **C2**: the corrected formula at
`delta = 0, distance = 1, adjustment = 0`. -/
theorem C2_witness :
    (0 : ℝ) < 1 ∧ slope_speed 0 1 0 = slopeSpeedSpecTiesAway 0 1 0 :=
  ⟨by norm_num, C2_formula 0 1 0 (by norm_num)⟩

theorem rustRound_mono {x y : ℝ} (h : x ≤ y) : rustRound x ≤ rustRound y := by
  rcases le_or_lt 0 x with hx | hx
  · rw [rustRound, rustRound, if_pos hx, if_pos (hx.trans h)]
    exact Int.floor_le_floor (by linarith)
  · rcases le_or_lt 0 y with hy | hy
    · rw [rustRound, rustRound, if_neg (not_le.mpr hx), if_pos hy]
      have h1 : ⌈x - 1 / 2⌉ ≤ (0 : ℤ) := Int.ceil_le.mpr (by push_cast; linarith)
      have h2 : (0 : ℤ) ≤ ⌊y + 1 / 2⌋ := Int.le_floor.mpr (by push_cast; linarith)
      omega
    · rw [rustRound, rustRound, if_neg (not_le.mpr hx), if_neg (not_le.mpr hy)]
      exact Int.ceil_le_ceil (by linarith)

theorem u64sat_mono {n m : ℤ} (h : n ≤ m) : u64sat n ≤ u64sat m :=
  Int.toNat_le_toNat (min_le_min h le_rfl)

/-- **C3** counterexample.  At `delta = 0`, `distance = 1`,
`adjustment1 = 0 < adjustment2 = 0.1`, both calls round to `1` second:
increasing the adjustment does not strictly increase the duration. -/
theorem C3_counterexample :
    (0 : ℝ) < 0.1 ∧ slope_speed 0 1 0 = 1 ∧ slope_speed 0 1 0.1 = 1 := by
  have hexp : Real.exp 0.35 < 2.5 := by
    have h1 : Real.exp 0.35 * Real.exp 0.35 = Real.exp 0.7 := by
      rw [← Real.exp_add]; norm_num
    have h2 : Real.exp 0.7 < Real.exp 1 := Real.exp_lt_exp.mpr (by norm_num)
    have h3 : Real.exp 1 < 2.7182818286 := Real.exp_one_lt_d9
    have h4 : (0 : ℝ) < Real.exp 0.35 := Real.exp_pos _
    nlinarith
  have hexp' : (1.35 : ℝ) ≤ Real.exp 0.35 := by
    have := Real.add_one_le_exp (0.35 : ℝ)
    linarith
  refine ⟨by norm_num, ?_, ?_⟩
  · have harg : (3.5 : ℝ) * (0 / 1 + 0) = 0 := by norm_num
    show u64sat (rustRound ((0.6 : ℝ) * Real.exp (3.5 * (0 / 1 + 0)) * 1)) = 1
    rw [harg, Real.exp_zero]
    have hv : (0.6 : ℝ) * 1 * 1 = 0.6 := by norm_num
    rw [hv, rustRound, if_pos (by norm_num : (0 : ℝ) ≤ 0.6)]
    have hfl : ⌊(0.6 : ℝ) + 1 / 2⌋ = 1 := by
      rw [Int.floor_eq_iff]
      constructor <;> norm_num
    rw [hfl, u64sat_one]
  · have harg : (3.5 : ℝ) * (0 / 1 + 0.1) = 0.35 := by norm_num
    show u64sat (rustRound ((0.6 : ℝ) * Real.exp (3.5 * (0 / 1 + 0.1)) * 1)) = 1
    rw [harg]
    set e := Real.exp 0.35 with he
    have hv1 : (0.5 : ℝ) ≤ 0.6 * e * 1 := by nlinarith
    have hv2 : (0.6 : ℝ) * e * 1 < 1.5 := by nlinarith
    rw [rustRound, if_pos (by linarith : (0 : ℝ) ≤ 0.6 * e * 1)]
    have hfl : ⌊(0.6 : ℝ) * e * 1 + 1 / 2⌋ = 1 := by
      rw [Int.floor_eq_iff]
      constructor <;> push_cast <;> linarith
    rw [hfl, u64sat_one]

/-- **C3** (corrected).  For fixed `delta_elevation` and fixed
`distance > 0`, a larger adjustment yields a duration at least as
large (weak, not strict, monotonicity: rounding to whole seconds can
collapse nearby adjustments to the same duration). -/
theorem C3_mono_adjustment (delta_elevation distance a1 a2 : ℝ)
    (hd : 0 < distance) (ha : a1 < a2) :
    slope_speed delta_elevation distance a1 ≤ slope_speed delta_elevation distance a2 := by
  apply u64sat_mono
  apply rustRound_mono
  have hexp : Real.exp (3.5 * (delta_elevation / distance + a1)) ≤
      Real.exp (3.5 * (delta_elevation / distance + a2)) :=
    Real.exp_le_exp.mpr (by linarith)
  have h1 : (0 : ℝ) < Real.exp (3.5 * (delta_elevation / distance + a1)) := Real.exp_pos _
  nlinarith

/-- Witness for **C3**: weak monotonicity at
`delta = 0, distance = 1000, 0.1 < 0.2`. -/
theorem C3_witness :
    (0 : ℝ) < 1000 ∧ (0.1 : ℝ) < 0.2 ∧
      slope_speed 0 1000 0.1 ≤ slope_speed 0 1000 0.2 :=
  ⟨by norm_num, by norm_num, C3_mono_adjustment 0 1000 0.1 0.2 (by norm_num) (by norm_num)⟩

/-- A GPX waypoint (`gpx::Waypoint`): coordinates and an optional
elevation in meters.  Timestamps are not modelled: `read_gpx` only
writes them (an output side effect) and no accumulator reads them. -/
structure Waypoint where
  latitude : ℝ
  longitude : ℝ
  elevation : Option ℝ

/-- A GPX track segment: an ordered list of waypoints. -/
structure Segment where
  points : List Waypoint

/-- A GPX track: an ordered list of segments. -/
structure Track where
  segments : List Segment

/-- The mutable accumulators of `read_gpx` (`src/utils.rs:44-53`),
plus the list of reported distance failures (the `println!` on
`src/utils.rs:95`, modelled as data): each entry is the pair of point
indices `(i - 1, i)` named in the failure message. -/
structure GpxState where
  d_plus : ℝ
  d_minus : ℝ
  max_height : ℝ
  min_height : ℝ
  average_altitude : ℝ
  track_length : ℝ
  duration : ℕ
  failures : List (ℕ × ℕ)

/-- `f64::MAX`, the initial value of `min_height`
(`src/utils.rs:48`). -/
noncomputable def f64MAX : ℝ := 2 ^ 1024 - 2 ^ 971

/-- The accumulators as initialized at `src/utils.rs:44-53`:
everything `0` except `min_height = f64::MAX`. -/
noncomputable def initState : GpxState :=
  { d_plus := 0, d_minus := 0, max_height := 0, min_height := f64MAX,
    average_altitude := 0, track_length := 0, duration := 0, failures := [] }

/-- One iteration of the inner loop of `read_gpx`
(`src/utils.rs:58-97`) on the consecutive pair `(a, b) =
(points[i-1], points[i])`.  `dist` is the pluggable geodesic-distance
collaborator (`distance_3d`, a thin wrapper over
`vincenty_core::distance_from_coords`); `none` models the `Err` case. -/
noncomputable def pairStep (dist : Waypoint → Waypoint → Option ℝ)
    (speed_adjustement : ℝ) (i : ℕ) (s : GpxState) (a b : Waypoint) : GpxState :=
  match dist a b with
  | some distance =>
    let track_length := s.track_length + distance
    match a.elevation, b.elevation with
    | some a_elevation, some b_elevation =>
      { s with
        track_length := track_length
        d_plus := if a_elevation < b_elevation then s.d_plus + (b_elevation - a_elevation)
          else s.d_plus
        d_minus := if a_elevation < b_elevation then s.d_minus
          else s.d_minus + (a_elevation - b_elevation)
        max_height := if s.max_height < b_elevation then b_elevation else s.max_height
        min_height := if b_elevation < s.min_height then b_elevation else s.min_height
        average_altitude := (s.average_altitude + b_elevation) / 2
        duration := s.duration +
          slope_speed (b_elevation - a_elevation) (distance * 1000) speed_adjustement }
    | _, _ =>
      { s with
        track_length := track_length
        duration := s.duration + slope_speed 0 (distance * 1000) speed_adjustement }
  | none => { s with failures := s.failures ++ [(i - 1, i)] }

/-- The inner loop `for i in 1..segment.points.len()` of `read_gpx`:
`a` is `points[i-1]`, the list argument holds `points[i], ...`. -/
noncomputable def segLoopAux (dist : Waypoint → Waypoint → Option ℝ)
    (speed_adjustement : ℝ) : ℕ → Waypoint → List Waypoint → GpxState → GpxState
  | _, _, [], s => s
  | i, a, b :: rest, s =>
    segLoopAux dist speed_adjustement (i + 1) b rest (pairStep dist speed_adjustement i s a b)

/-- Processing of one segment by `read_gpx`. -/
noncomputable def segLoop (dist : Waypoint → Waypoint → Option ℝ)
    (speed_adjustement : ℝ) (points : List Waypoint) (s : GpxState) : GpxState :=
  match points with
  | [] => s
  | a :: rest => segLoopAux dist speed_adjustement 1 a rest s

/-- The final accumulator state of `read_gpx` over a whole track. -/
noncomputable def read_gpx_state (dist : Waypoint → Waypoint → Option ℝ)
    (track : Track) (speed_adjustement : ℝ) : GpxState :=
  track.segments.foldl (fun s seg => segLoop dist speed_adjustement seg.points s) initState

/-- `PathStats` from `src/utils.rs:15-23`; `duration` is a
whole-second count (every duration the core produces is). -/
structure PathStats where
  distance : ℝ
  d_plus : ℝ
  d_minus : ℝ
  duration : ℕ
  min_height : ℝ
  max_height : ℝ
  average_altitude : ℝ

/-- `read_gpx` from `src/utils.rs:38-109`.  `edit_track_times` only
controls the timestamp-rewriting side effect on the input track, which
no accumulator reads, so it does not influence the returned stats. -/
noncomputable def read_gpx (dist : Waypoint → Waypoint → Option ℝ)
    (track : Track) (speed_adjustement : ℝ) (edit_track_times : Bool) : PathStats :=
  let final := read_gpx_state dist track speed_adjustement
  { distance := final.track_length
    d_plus := final.d_plus
    d_minus := final.d_minus
    duration := final.duration
    min_height := final.min_height
    max_height := final.max_height
    average_altitude := final.average_altitude }

/-- **C5** (confirmed).  A consecutive pair whose geodesic distance
succeeds but where at least one waypoint lacks elevation leaves
ascent, descent, min/max height and average altitude unchanged, yet
still adds the pair's distance to the total and advances the
cumulative duration with a zero elevation delta, before the loop
continues with the next pair. -/
theorem C5_missing_elevation (dist : Waypoint → Waypoint → Option ℝ)
    (speed_adjustement : ℝ) (i : ℕ) (a b : Waypoint) (rest : List Waypoint)
    (s : GpxState) (d : ℝ) (hdist : dist a b = some d)
    (hel : a.elevation = none ∨ b.elevation = none) :
    segLoopAux dist speed_adjustement i a (b :: rest) s =
      segLoopAux dist speed_adjustement (i + 1) b rest
        { s with
          track_length := s.track_length + d
          duration := s.duration + slope_speed 0 (d * 1000) speed_adjustement } := by
  rcases hel with h | h
  · cases hb : b.elevation <;> simp [segLoopAux, pairStep, hdist, h, hb]
  · cases ha : a.elevation <;> simp [segLoopAux, pairStep, hdist, h, ha]

/-- **C6** (confirmed).  A consecutive pair whose geodesic distance
fails contributes zero to every accumulator, records the failure with
the two point indices `(i - 1, i)`, and the loop continues with the
next pair instead of aborting. -/
theorem C6_distance_failure (dist : Waypoint → Waypoint → Option ℝ)
    (speed_adjustement : ℝ) (i : ℕ) (a b : Waypoint) (rest : List Waypoint)
    (s : GpxState) (hdist : dist a b = none) :
    segLoopAux dist speed_adjustement i a (b :: rest) s =
      segLoopAux dist speed_adjustement (i + 1) b rest
        { s with failures := s.failures ++ [(i - 1, i)] } := by
  simp [segLoopAux, pairStep, hdist]

theorem segLoop_short (dist : Waypoint → Waypoint → Option ℝ)
    (speed_adjustement : ℝ) (pts : List Waypoint) (s : GpxState)
    (h : pts.length ≤ 1) : segLoop dist speed_adjustement pts s = s := by
  match pts with
  | [] => rfl
  | [a] => rfl
  | a :: b :: rest => simp at h

theorem foldl_segLoop_short (dist : Waypoint → Waypoint → Option ℝ)
    (speed_adjustement : ℝ) (segs : List Segment)
    (h : ∀ seg ∈ segs, seg.points.length ≤ 1) (s : GpxState) :
    segs.foldl (fun s seg => segLoop dist speed_adjustement seg.points s) s = s := by
  induction segs generalizing s with
  | nil => rfl
  | cons seg segs ih =>
    rw [List.foldl_cons, segLoop_short dist speed_adjustement seg.points s
      (h seg (List.mem_cons_self seg segs))]
    exact ih (fun t ht => h t (List.mem_cons_of_mem seg ht)) s

/-- **C7** (confirmed).  A track containing exactly one waypoint in
total, or containing zero segments, yields statistics with distance,
ascent, descent and duration all `0`. -/
theorem C7_degenerate_track (dist : Waypoint → Waypoint → Option ℝ)
    (track : Track) (speed_adjustement : ℝ) (edit : Bool)
    (h : (track.segments.map fun seg => seg.points.length).sum = 1 ∨
      track.segments = []) :
    (read_gpx dist track speed_adjustement edit).distance = 0 ∧
      (read_gpx dist track speed_adjustement edit).d_plus = 0 ∧
      (read_gpx dist track speed_adjustement edit).d_minus = 0 ∧
      (read_gpx dist track speed_adjustement edit).duration = 0 := by
  have hshort : ∀ seg ∈ track.segments, seg.points.length ≤ 1 := by
    rcases h with h | h
    · intro seg hseg
      have hmem : seg.points.length ∈ track.segments.map fun seg => seg.points.length :=
        List.mem_map_of_mem _ hseg
      have := List.single_le_sum (fun x _ => Nat.zero_le x) _ hmem
      omega
    · intro seg hseg
      rw [h] at hseg
      exact absurd hseg (List.not_mem_nil seg)
  have hstate : read_gpx_state dist track speed_adjustement = initState :=
    foldl_segLoop_short dist speed_adjustement track.segments hshort initState
  refine ⟨?_, ?_, ?_, ?_⟩ <;> simp [read_gpx, hstate, initState]

/-- A geodesic-distance collaborator that always succeeds with 1 km. -/
noncomputable def distOne : Waypoint → Waypoint → Option ℝ := fun _ _ => some 1

/-- A geodesic-distance collaborator that always fails. -/
def distFail : Waypoint → Waypoint → Option ℝ := fun _ _ => none

/-- A waypoint with no elevation. -/
noncomputable def wNoElev : Waypoint := ⟨0, 0, none⟩

/-- A waypoint at elevation 5 m. -/
noncomputable def wElev5 : Waypoint := ⟨0, 0, some 5⟩

/-- Witness for **C5** at a concrete pair with a missing elevation. -/
theorem C5_witness :
    distOne wNoElev wElev5 = some 1 ∧
      (wNoElev.elevation = none ∨ wElev5.elevation = none) ∧
      segLoopAux distOne 0 1 wNoElev [wElev5] initState =
        segLoopAux distOne 0 2 wElev5 []
          { initState with
            track_length := initState.track_length + 1
            duration := initState.duration + slope_speed 0 (1 * 1000) 0 } :=
  ⟨rfl, Or.inl rfl,
    C5_missing_elevation distOne 0 1 wNoElev wElev5 [] initState 1 rfl (Or.inl rfl)⟩

/-- Witness for **C6** at a concrete failing pair. -/
theorem C6_witness :
    distFail wNoElev wElev5 = none ∧
      segLoopAux distFail 0 1 wNoElev [wElev5] initState =
        segLoopAux distFail 0 2 wElev5 []
          { initState with failures := initState.failures ++ [(0, 1)] } :=
  ⟨rfl, C6_distance_failure distFail 0 1 wNoElev wElev5 [] initState rfl⟩

/-- Witness for **C7** on a one-waypoint track. -/
theorem C7_witness :
    ((((Track.mk [Segment.mk [wNoElev]]).segments.map
        fun seg => seg.points.length).sum = 1 ∨
      (Track.mk [Segment.mk [wNoElev]]).segments = []) ∧
      (read_gpx distOne (Track.mk [Segment.mk [wNoElev]]) 0 false).distance = 0 ∧
      (read_gpx distOne (Track.mk [Segment.mk [wNoElev]]) 0 false).d_plus = 0 ∧
      (read_gpx distOne (Track.mk [Segment.mk [wNoElev]]) 0 false).d_minus = 0 ∧
      (read_gpx distOne (Track.mk [Segment.mk [wNoElev]]) 0 false).duration = 0) :=
  ⟨Or.inl rfl, C7_degenerate_track distOne (Track.mk [Segment.mk [wNoElev]]) 0 false (Or.inl rfl)⟩

/-- The later-point elevations actually seen by the inner loop:
elevation of `b` for each consecutive pair `(a, b)` whose distance
succeeds and where both waypoints carry elevation. -/
def pairElevsAux (dist : Waypoint → Waypoint → Option ℝ) :
    Waypoint → List Waypoint → List ℝ
  | _, [] => []
  | a, b :: rest =>
    (match dist a b, a.elevation, b.elevation with
     | some _, some _, some b_elevation => [b_elevation]
     | _, _, _ => []) ++ pairElevsAux dist b rest

/-- The later-point elevations seen while processing one segment. -/
def segElevs (dist : Waypoint → Waypoint → Option ℝ) (points : List Waypoint) : List ℝ :=
  match points with
  | [] => []
  | a :: rest => pairElevsAux dist a rest

/-- The later-point elevations seen while processing a whole track. -/
def trackElevs (dist : Waypoint → Waypoint → Option ℝ) (track : Track) : List ℝ :=
  (track.segments.map fun seg => segElevs dist seg.points).flatten

theorem ite_lt_eq_max (m e : ℝ) : (if m < e then e else m) = max m e := by
  rcases lt_or_le m e with h | h
  · rw [if_pos h, max_eq_right h.le]
  · rw [if_neg (not_lt.mpr h), max_eq_left h]

theorem ite_lt_eq_min (m e : ℝ) : (if e < m then e else m) = min m e := by
  rcases lt_or_le e m with h | h
  · rw [if_pos h, min_eq_right h.le]
  · rw [if_neg (not_lt.mpr h), min_eq_left h]

theorem pairStep_max_height (dist : Waypoint → Waypoint → Option ℝ)
    (speed_adjustement : ℝ) (i : ℕ) (s : GpxState) (a b : Waypoint) :
    (pairStep dist speed_adjustement i s a b).max_height =
      ((match dist a b, a.elevation, b.elevation with
        | some _, some _, some b_elevation => [b_elevation]
        | _, _, _ => ([] : List ℝ))).foldl max s.max_height := by
  cases hd : dist a b with
  | none => cases ha : a.elevation <;> cases hb : b.elevation <;>
      simp [pairStep, hd, ha, hb]
  | some d => cases ha : a.elevation <;> cases hb : b.elevation <;>
      simp [pairStep, hd, ha, hb, ite_lt_eq_max]

theorem pairStep_min_height (dist : Waypoint → Waypoint → Option ℝ)
    (speed_adjustement : ℝ) (i : ℕ) (s : GpxState) (a b : Waypoint) :
    (pairStep dist speed_adjustement i s a b).min_height =
      ((match dist a b, a.elevation, b.elevation with
        | some _, some _, some b_elevation => [b_elevation]
        | _, _, _ => ([] : List ℝ))).foldl min s.min_height := by
  cases hd : dist a b with
  | none => cases ha : a.elevation <;> cases hb : b.elevation <;>
      simp [pairStep, hd, ha, hb]
  | some d => cases ha : a.elevation <;> cases hb : b.elevation <;>
      simp [pairStep, hd, ha, hb, ite_lt_eq_min, min_comm]

theorem segLoopAux_max_height (dist : Waypoint → Waypoint → Option ℝ)
    (speed_adjustement : ℝ) (rest : List Waypoint) :
    ∀ (i : ℕ) (a : Waypoint) (s : GpxState),
    (segLoopAux dist speed_adjustement i a rest s).max_height =
      (pairElevsAux dist a rest).foldl max s.max_height := by
  induction rest with
  | nil => intro i a s; simp [segLoopAux, pairElevsAux]
  | cons b rest ih =>
    intro i a s
    simp only [segLoopAux, pairElevsAux, List.foldl_append, ih]
    rw [pairStep_max_height]

theorem segLoopAux_min_height (dist : Waypoint → Waypoint → Option ℝ)
    (speed_adjustement : ℝ) (rest : List Waypoint) :
    ∀ (i : ℕ) (a : Waypoint) (s : GpxState),
    (segLoopAux dist speed_adjustement i a rest s).min_height =
      (pairElevsAux dist a rest).foldl min s.min_height := by
  induction rest with
  | nil => intro i a s; simp [segLoopAux, pairElevsAux]
  | cons b rest ih =>
    intro i a s
    simp only [segLoopAux, pairElevsAux, List.foldl_append, ih]
    rw [pairStep_min_height]

theorem segLoop_max_height (dist : Waypoint → Waypoint → Option ℝ)
    (speed_adjustement : ℝ) (pts : List Waypoint) (s : GpxState) :
    (segLoop dist speed_adjustement pts s).max_height =
      (segElevs dist pts).foldl max s.max_height := by
  cases pts with
  | nil => rfl
  | cons a rest => exact segLoopAux_max_height dist speed_adjustement rest 1 a s

theorem segLoop_min_height (dist : Waypoint → Waypoint → Option ℝ)
    (speed_adjustement : ℝ) (pts : List Waypoint) (s : GpxState) :
    (segLoop dist speed_adjustement pts s).min_height =
      (segElevs dist pts).foldl min s.min_height := by
  cases pts with
  | nil => rfl
  | cons a rest => exact segLoopAux_min_height dist speed_adjustement rest 1 a s

theorem foldl_segLoop_max_height (dist : Waypoint → Waypoint → Option ℝ)
    (speed_adjustement : ℝ) (segs : List Segment) :
    ∀ s : GpxState,
    (segs.foldl (fun s seg => segLoop dist speed_adjustement seg.points s) s).max_height =
      ((segs.map fun seg => segElevs dist seg.points).flatten).foldl max s.max_height := by
  induction segs with
  | nil => intro s; simp
  | cons seg segs ih =>
    intro s
    simp only [List.foldl_cons, List.map_cons, List.flatten, List.foldl_append, ih,
      segLoop_max_height]

theorem foldl_segLoop_min_height (dist : Waypoint → Waypoint → Option ℝ)
    (speed_adjustement : ℝ) (segs : List Segment) :
    ∀ s : GpxState,
    (segs.foldl (fun s seg => segLoop dist speed_adjustement seg.points s) s).min_height =
      ((segs.map fun seg => segElevs dist seg.points).flatten).foldl min s.min_height := by
  induction segs with
  | nil => intro s; simp
  | cons seg segs ih =>
    intro s
    simp only [List.foldl_cons, List.map_cons, List.flatten, List.foldl_append, ih,
      segLoop_min_height]

/-- **C4** (corrected).  `min_height` is initialized to `f64::MAX`
(not `+infinity`) and `max_height` to `0.0`; a track with no usable
elevation data returns `min_height` unchanged at the sentinel
`f64::MAX`, and the returned `max_height` is the maximum of `0` and
the later-point elevations actually seen — not, in general, the
largest elevation seen. -/
theorem C4_sentinels (dist : Waypoint → Waypoint → Option ℝ)
    (track : Track) (speed_adjustement : ℝ) (edit : Bool) :
    (read_gpx dist track speed_adjustement edit).max_height =
      (trackElevs dist track).foldl max 0 ∧
    (trackElevs dist track = [] →
      (read_gpx dist track speed_adjustement edit).min_height = f64MAX) := by
  constructor
  · show (read_gpx_state dist track speed_adjustement).max_height = _
    rw [read_gpx_state, foldl_segLoop_max_height]
    rfl
  · intro hempty
    show (read_gpx_state dist track speed_adjustement).min_height = f64MAX
    rw [read_gpx_state, foldl_segLoop_min_height]
    rw [show ((track.segments.map fun seg => segElevs dist seg.points).flatten) =
      trackElevs dist track from rfl, hempty]
    rfl

/-- A 2-point track whose elevations are all negative. -/
noncomputable def negElevTrack : Track :=
  Track.mk [Segment.mk [Waypoint.mk 0 0 (some (-10)), Waypoint.mk 0 0 (some (-5))]]

/-- **C4** counterexample.  On a track whose only later-point
elevation is `-5` m (all elevations negative), `read_gpx` returns
`max_height = 0`, not the largest elevation actually seen (`-5`):
`max_height`'s initial value `0.0` is not a value no waypoint
elevation can be below. -/
theorem C4_counterexample :
    trackElevs distOne negElevTrack = [(-5 : ℝ)] ∧
      (read_gpx distOne negElevTrack 0 false).max_height = 0 ∧
      (0 : ℝ) ≠ -5 := by
  have helevs : trackElevs distOne negElevTrack = [(-5 : ℝ)] := by
    simp [trackElevs, negElevTrack, segElevs, pairElevsAux, distOne]
  refine ⟨helevs, ?_, by norm_num⟩
  show (read_gpx_state distOne negElevTrack 0).max_height = 0
  rw [read_gpx_state, foldl_segLoop_max_height]
  rw [show ((negElevTrack.segments.map fun seg => segElevs distOne seg.points).flatten) =
    trackElevs distOne negElevTrack from rfl, helevs]
  show max (0 : ℝ) (-5) = 0
  rw [max_eq_left (by norm_num : (-5 : ℝ) ≤ 0)]

/-- A 2-point track with no elevation data at all. -/
noncomputable def noElevTrack : Track :=
  Track.mk [Segment.mk [wNoElev, Waypoint.mk 1 1 none]]

/-- Witness for **C4**: on a concrete track with no elevation data,
`min_height` comes back unchanged at the sentinel `f64::MAX`. -/
theorem C4_witness :
    trackElevs distOne noElevTrack = [] ∧
      (read_gpx distOne noElevTrack 0 false).max_height =
        (trackElevs distOne noElevTrack).foldl max 0 ∧
      (read_gpx distOne noElevTrack 0 false).min_height = f64MAX :=
  ⟨rfl, (C4_sentinels distOne noElevTrack 0 false).1,
    (C4_sentinels distOne noElevTrack 0 false).2 rfl⟩

/-- `Splits` from `src/utils.rs:10-13`: the parsed JSON splits file,
an ordered list of `(ascent, descent)` pairs of `i32` meters. -/
structure Splits where
  splits : List (ℤ × ℤ)

/-- Two's-complement wrap-around of `i32` arithmetic (the behaviour of
the `split.0 - split.1` subtraction when it overflows). -/
def wrap32 (n : ℤ) : ℤ := (n + 2 ^ 31) % 2 ^ 32 - 2 ^ 31

theorem wrap32_eq_self {n : ℤ} (h1 : -(2 ^ 31) ≤ n) (h2 : n < 2 ^ 31) :
    wrap32 n = n := by
  rw [wrap32, Int.emod_eq_of_lt (by omega) (by omega)]
  omega

/-- `calculate_travel_time` from `src/utils.rs:123-131`: one
`slope_speed` duration per split, in insertion order, with delta
`split.0 - split.1` (an `i32` subtraction) over the nominal
`split_length`. -/
noncomputable def calculate_travel_time (splits : List (ℤ × ℤ)) (split_length : ℤ)
    (formula_adjustement : ℝ) : List ℕ :=
  splits.map fun split =>
    slope_speed ((wrap32 (split.1 - split.2) : ℤ) : ℝ) ((split_length : ℤ) : ℝ)
      formula_adjustement

/-- `PathStats::default()` (`src/utils.rs:31-35`): every field zero. -/
def PathStatsDefault : PathStats :=
  { distance := 0, d_plus := 0, d_minus := 0, duration := 0,
    min_height := 0, max_height := 0, average_altitude := 0 }

/-- `stats` from `src/utils.rs:111-121`: the real computation is
commented out and the function returns `PathStats::default()`
regardless of its arguments. -/
def stats (splits : Splits) (split_length : ℤ) : PathStats :=
  PathStatsDefault

/-- The running `total_time += duration` loop of `analyse_by_splits`
(`src/main.rs:135-148`): the cumulative total printed after each
split, in order. -/
def reported_totals (times : List ℕ) : List ℕ :=
  (times.foldl (fun acc duration => (acc.1 + duration, acc.2 ++ [acc.1 + duration]))
    ((0 : ℕ), ([] : List ℕ))).2

/-- The analysis report produced by `analyse_by_splits`
(`src/main.rs:106-151`), with console output modelled as data. -/
structure SplitsReport where
  path_info : PathStats
  times : List ℕ
  totals : List ℕ
  total_time : ℕ

/-- `analyse_by_splits` (`src/main.rs:106-151`) after input reading:
unconditionally prints `stats` as the path info, computes the
per-split durations, the running totals, and the final total. -/
noncomputable def analyse_by_splits (splits : Splits) (splits_length : ℤ)
    (speed_adjustement : ℝ) : SplitsReport :=
  let times := calculate_travel_time splits.splits splits_length speed_adjustement
  { path_info := stats splits splits_length
    times := times
    totals := reported_totals times
    total_time := times.foldl (fun total duration => total + duration) 0 }

theorem reported_totals_aux (times : List ℕ) :
    ∀ (acc : ℕ) (out : List ℕ),
    (times.foldl (fun acc duration => (acc.1 + duration, acc.2 ++ [acc.1 + duration]))
      (acc, out)).2 =
      out ++ (List.range times.length).map fun i => acc + ((times.take (i + 1)).sum) := by
  induction times with
  | nil => intro acc out; simp
  | cons t ts ih =>
    intro acc out
    rw [List.foldl_cons, ih (acc + t) (out ++ [acc + t])]
    rw [List.length_cons, List.range_succ_eq_map, List.map_cons, List.map_map]
    simp only [List.take_succ_cons, List.sum_cons, List.append_assoc, List.cons_append,
      List.nil_append, Function.comp]
    simp [Nat.add_assoc, Nat.succ_eq_add_one]

/-- The reported running totals are exactly the prefix sums. -/
theorem reported_totals_eq (times : List ℕ) :
    reported_totals times =
      (List.range times.length).map fun i => (times.take (i + 1)).sum := by
  rw [reported_totals, reported_totals_aux times 0 []]
  simp

/-- **C8** counterexample.  At the valid `i32` split
`(2147483647, -2147483648)` the delta subtraction overflows:
`2147483647 - (-2147483648) = 4294967295` wraps to `-1`, so the
computed duration (598 s at `split_length = 1000`, `adjustment = 0`)
is not `SlopeSpeedModel(ascent - descent, split_length, adjustment)`,
which saturates at `u64::MAX` seconds. -/
theorem C8_counterexample :
    ((2147483647 : ℤ) - (-2147483648) : ℤ) = 4294967295 ∧
      calculate_travel_time [((2147483647 : ℤ), (-2147483648 : ℤ))] 1000 0 =
        [slope_speed ((-1 : ℤ) : ℝ) ((1000 : ℤ) : ℝ) 0] ∧
      slope_speed ((-1 : ℤ) : ℝ) ((1000 : ℤ) : ℝ) 0 = 598 ∧
      slope_speed ((4294967295 : ℤ) : ℝ) ((1000 : ℤ) : ℝ) 0 = 2 ^ 64 - 1 ∧
      calculate_travel_time [((2147483647 : ℤ), (-2147483648 : ℤ))] 1000 0 ≠
        [slope_speed ((4294967295 : ℤ) : ℝ) ((1000 : ℤ) : ℝ) 0] := by
  have hsub : ((2147483647 : ℤ) - (-2147483648) : ℤ) = 4294967295 := by decide
  have hwrap : wrap32 4294967295 = -1 := by decide
  have hmap : calculate_travel_time [((2147483647 : ℤ), (-2147483648 : ℤ))] 1000 0 =
      [slope_speed ((-1 : ℤ) : ℝ) ((1000 : ℤ) : ℝ) 0] := by
    rw [calculate_travel_time, List.map_cons, List.map_nil]
    have : wrap32 ((2147483647 : ℤ) - (-2147483648)) = -1 := by rw [hsub, hwrap]
    rw [this]
  have hsmall : slope_speed ((-1 : ℤ) : ℝ) ((1000 : ℤ) : ℝ) 0 = 598 := by
    have hc1 : ((-1 : ℤ) : ℝ) = -1 := by push_cast; ring
    have hc2 : ((1000 : ℤ) : ℝ) = 1000 := by push_cast; ring
    rw [hc1, hc2]
    have harg : (3.5 : ℝ) * (-1 / 1000 + 0) = -0.0035 := by norm_num
    show u64sat (rustRound ((0.6 : ℝ) * Real.exp (3.5 * (-1 / 1000 + 0)) * 1000)) = 598
    rw [harg]
    have hlo : (1 : ℝ) - 0.0035 ≤ Real.exp (-0.0035) := by
      have := Real.add_one_le_exp (-0.0035 : ℝ); linarith
    have hhi : Real.exp (-0.0035) ≤ (1.0035 : ℝ)⁻¹ := by
      have h1 : (1.0035 : ℝ) ≤ Real.exp 0.0035 := by
        have := Real.add_one_le_exp (0.0035 : ℝ); linarith
      rw [Real.exp_neg]
      exact inv_le_inv_of_le (by norm_num) h1
    have hv1 : (597.5 : ℝ) ≤ 0.6 * Real.exp (-0.0035) * 1000 := by nlinarith
    have hv2 : (0.6 : ℝ) * Real.exp (-0.0035) * 1000 < 598.5 := by
      have hinv : (1.0035 : ℝ)⁻¹ < 0.9975 := by norm_num
      nlinarith
    rw [rustRound, if_pos (by linarith : (0 : ℝ) ≤ 0.6 * Real.exp (-0.0035) * 1000)]
    have hfl : ⌊(0.6 : ℝ) * Real.exp (-0.0035) * 1000 + 1 / 2⌋ = 598 := by
      rw [Int.floor_eq_iff]
      constructor <;> push_cast <;> linarith
    rw [hfl]
    norm_num [u64sat]
    rfl
  have hbig : slope_speed ((4294967295 : ℤ) : ℝ) ((1000 : ℤ) : ℝ) 0 = 2 ^ 64 - 1 := by
    have hc1 : ((4294967295 : ℤ) : ℝ) = 4294967295 := by push_cast; ring
    have hc2 : ((1000 : ℤ) : ℝ) = 1000 := by push_cast; ring
    rw [hc1, hc2]
    show u64sat (rustRound ((0.6 : ℝ) * Real.exp (3.5 * (4294967295 / 1000 + 0)) * 1000)) =
      2 ^ 64 - 1
    have h2e : (2 : ℝ) ≤ Real.exp 1 := by
      have := Real.add_one_le_exp (1 : ℝ); linarith
    have hp64 : (2 : ℝ) ^ 64 ≤ Real.exp 1 ^ 64 := pow_le_pow_left (by norm_num) h2e 64
    have h64 : Real.exp 1 ^ 64 = Real.exp 64 := by
      rw [← Real.exp_nat_mul]; norm_num
    have hmono : Real.exp 64 ≤ Real.exp (3.5 * (4294967295 / 1000 + 0)) :=
      Real.exp_le_exp.mpr (by norm_num)
    have hexp : (2 : ℝ) ^ 64 ≤ Real.exp (3.5 * (4294967295 / 1000 + 0)) := by
      rw [← h64] at hmono; linarith
    have hv : (2 : ℝ) ^ 64 ≤ 0.6 * Real.exp (3.5 * (4294967295 / 1000 + 0)) * 1000 := by
      nlinarith [Real.exp_pos (3.5 * ((4294967295 : ℝ) / 1000 + 0))]
    have hge : (2 ^ 64 : ℤ) ≤ rustRound (0.6 * Real.exp (3.5 * (4294967295 / 1000 + 0)) * 1000) := by
      rw [rustRound, if_pos (by positivity)]
      exact Int.le_floor.mpr (by push_cast; linarith)
    rw [u64sat, min_eq_right (by omega : (2 ^ 64 - 1 : ℤ) ≤ _)]
    norm_num
    rfl
  refine ⟨hsub, hmap, hsmall, hbig, ?_⟩
  rw [hmap]
  intro h
  have hheads : slope_speed ((-1 : ℤ) : ℝ) ((1000 : ℤ) : ℝ) 0 =
      slope_speed ((4294967295 : ℤ) : ℝ) ((1000 : ℤ) : ℝ) 0 := by
    injection h
  rw [hsmall, hbig] at hheads
  norm_num at hheads

/-- **C8** (corrected).  For every split list whose per-split `i32`
delta subtraction `ascent - descent` does not overflow,
`calculate_travel_time` returns one duration per split in insertion
order, the duration at index `i` being
`slope_speed(ascent_i - descent_i, split_length, adjustment)`, and the
cumulative total reported after each split equals the sum of the
individual durations up to and including it.  (On an overflowing pair
the delta wraps modulo `2^32` instead.) -/
theorem C8_travel_time (splits : List (ℤ × ℤ)) (split_length : ℤ)
    (formula_adjustement : ℝ)
    (h : ∀ p ∈ splits, -(2 ^ 31) ≤ p.1 - p.2 ∧ p.1 - p.2 < 2 ^ 31) :
    calculate_travel_time splits split_length formula_adjustement =
      (splits.map fun p =>
        slope_speed ((p.1 - p.2 : ℤ) : ℝ) ((split_length : ℤ) : ℝ) formula_adjustement) ∧
    ∀ i, i < splits.length →
      (reported_totals (calculate_travel_time splits split_length formula_adjustement))[i]? =
        some ((calculate_travel_time splits split_length formula_adjustement).take (i + 1)).sum := by
  have hmap : calculate_travel_time splits split_length formula_adjustement =
      splits.map fun p =>
        slope_speed ((p.1 - p.2 : ℤ) : ℝ) ((split_length : ℤ) : ℝ) formula_adjustement := by
    rw [calculate_travel_time]
    refine List.map_congr_left fun p hp => ?_
    rw [wrap32_eq_self (h p hp).1 (h p hp).2]
  refine ⟨hmap, fun i hi => ?_⟩
  have hlen : (calculate_travel_time splits split_length formula_adjustement).length =
      splits.length := by
    rw [calculate_travel_time, List.length_map]
  rw [reported_totals_eq, List.getElem?_map, List.getElem?_range (by omega : i < _)]
  rfl

/-- Witness for **C8**: the worked example of the spec,
`splits = [(100, 0), (0, 50)]`, `split_length = 1000`,
`adjustment = 0.08`. -/
theorem C8_witness :
    (∀ p ∈ [((100 : ℤ), (0 : ℤ)), (0, 50)], -(2 ^ 31) ≤ p.1 - p.2 ∧ p.1 - p.2 < 2 ^ 31) ∧
      (calculate_travel_time [(100, 0), (0, 50)] 1000 0.08 =
        [slope_speed ((100 : ℤ) : ℝ) ((1000 : ℤ) : ℝ) 0.08,
          slope_speed ((-50 : ℤ) : ℝ) ((1000 : ℤ) : ℝ) 0.08] ∧
      ∀ i, i < ([((100 : ℤ), (0 : ℤ)), (0, 50)] : List (ℤ × ℤ)).length →
        (reported_totals (calculate_travel_time [(100, 0), (0, 50)] 1000 0.08))[i]? =
          some ((calculate_travel_time [(100, 0), (0, 50)] 1000 0.08).take (i + 1)).sum) :=
  ⟨by decide, C8_travel_time [(100, 0), (0, 50)] 1000 0.08 (by decide)⟩

/-- The split-length prompt validator (`src/main.rs:110-119`): an
entry is accepted iff `input.parse::<i32>()` succeeds, i.e. iff the
entered numeric value lies in the `i32` range.  No sign or domain
check is performed. -/
def split_length_accepted (n : ℤ) : Bool := decide (-(2 ^ 31) ≤ n ∧ n < 2 ^ 31)

/-- The manual speed-adjustment prompt validator
(`src/main.rs:249-258`): an entry is accepted iff
`input.parse::<f32>()` succeeds; every numeric value, of either sign,
is accepted.  No domain check is performed. -/
def speed_adjustement_accepted (x : ℝ) : Bool := true

/-- **C9** counterexample.  The split length `-5` and the adjustment
`-0.5` are both accepted by the prompts (they are numeric), are
negative, and are handed unchanged to the statistics engine, which
happily computes durations with them: no `ConfigurationError`
rejection exists. -/
theorem C9_counterexample :
    split_length_accepted (-5) = true ∧
      speed_adjustement_accepted (-0.5) = true ∧
      ¬(0 : ℤ) ≤ -5 ∧ ¬(0 : ℝ) ≤ -0.5 ∧
      (analyse_by_splits ⟨[(100, 0)]⟩ (-5) (-0.5)).times =
        [slope_speed ((100 : ℤ) : ℝ) ((-5 : ℤ) : ℝ) (-0.5)] := by
  have hw : wrap32 100 = 100 := by decide
  exact ⟨by decide, rfl, by decide, by norm_num,
    by simp [analyse_by_splits, calculate_travel_time, hw]⟩

/-- **C9** (corrected).  The prompts reject only non-numeric input:
every in-range `i32` split length — negative ones included — and
every numeric adjustment — negative ones included — is accepted and
handed unchanged to the statistics engines.  No out-of-domain value
is rejected before analysis. -/
theorem C9_no_domain_check (n : ℤ) (splits : Splits) (adj : ℝ)
    (h1 : -(2 ^ 31) ≤ n) (h2 : n < 2 ^ 31) :
    split_length_accepted n = true ∧
      speed_adjustement_accepted adj = true ∧
      (analyse_by_splits splits n adj).times =
        calculate_travel_time splits.splits n adj := by
  refine ⟨?_, rfl, rfl⟩
  simp only [split_length_accepted, decide_eq_true_eq]
  exact ⟨h1, h2⟩

/-- Witness for **C9**: the negative split length `-5` and negative
adjustment `-0.5` flow into the engine. -/
theorem C9_witness :
    -(2 ^ 31) ≤ (-5 : ℤ) ∧ (-5 : ℤ) < 2 ^ 31 ∧
      (split_length_accepted (-5) = true ∧
        speed_adjustement_accepted (-0.5) = true ∧
        (analyse_by_splits ⟨[(100, 0)]⟩ (-5) (-0.5)).times =
          calculate_travel_time [(100, 0)] (-5) (-0.5)) :=
  ⟨by decide, by decide,
    C9_no_domain_check (-5) ⟨[(100, 0)]⟩ (-0.5) (by decide) (by decide)⟩

/-- **C10** (confirmed).  `stats` returns `PathStats::default()` — all
fields zero — independently of the splits and the split length, so the
"Path info" summary printed for the splits path never reflects the
loaded data. -/
theorem C10_stats_all_zero (splits : Splits) (split_length : ℤ) :
    stats splits split_length = PathStatsDefault ∧
      (stats splits split_length).distance = 0 ∧
      (stats splits split_length).d_plus = 0 ∧
      (stats splits split_length).d_minus = 0 ∧
      (stats splits split_length).duration = 0 ∧
      (stats splits split_length).min_height = 0 ∧
      (stats splits split_length).max_height = 0 ∧
      (stats splits split_length).average_altitude = 0 ∧
      ∀ (splits2 : Splits) (split_length2 : ℤ) (adj : ℝ),
        (analyse_by_splits splits2 split_length2 adj).path_info =
          stats splits split_length :=
  ⟨rfl, rfl, rfl, rfl, rfl, rfl, rfl, rfl, fun _ _ _ => rfl⟩

end MountainSnail
